import Mathlib

/-!
Shallow embedding of `gro.py` (Chennai vegetable-price dashboard):
the price-string parser `parse_price`, the scraper
`scrape_vegetable_prices`, the dashboard construction
`create_dashboard` and the filter callback `update_charts`,
together with theorems settling the spec claims about them.
Prices are modelled as rationals (`ℚ`); Python's `None` result and
raised exceptions become `Option` / `Except` values.
-/

namespace Gro

attribute [local semireducible] Rat.mul Rat.add Rat.inv

/-- Python `str.strip()` whitespace test (ASCII whitespace as used here). -/
def pyIsSpace (c : Char) : Bool :=
  c = ' ' || c = '\t' || c = '\n' || c = '\x0d' || c = '\x0b' || c = '\x0c'

/-- Python `str.strip()` on a character list: drop whitespace at both ends. -/
def pyStripList (cs : List Char) : List Char :=
  ((cs.dropWhile pyIsSpace).reverse.dropWhile pyIsSpace).reverse

/-- Python `str.strip()` on a string. -/
def pyStrip (s : String) : String :=
  String.mk (pyStripList s.data)

/-- Numeric value of a list of decimal digit characters (most significant first). -/
def digitsVal (l : List Char) : Nat :=
  l.foldl (fun a c => 10 * a + (c.toNat - 48)) 0

/-- Parse the mantissa part of a Python float literal: `D+ [. D*]` or `. D+`.
Returns the value and the unconsumed characters. -/
def parseMantissa (cs : List Char) : Option (ℚ × List Char) :=
  let ip := cs.span Char.isDigit
  match ip.2 with
  | '.' :: r2 =>
    let fp := r2.span Char.isDigit
    if ip.1.isEmpty && fp.1.isEmpty then none
    else some ((digitsVal ip.1 : ℚ) + (digitsVal fp.1 : ℚ) / (10 : ℚ) ^ fp.1.length, fp.2)
  | _ => if ip.1.isEmpty then none else some ((digitsVal ip.1 : ℚ), ip.2)

/-- Parse an optional exponent part `e|E [sign] D+`; returns exponent 0 when the
input does not start with `e`/`E`. -/
def parseExpPart : List Char → Option (Int × List Char)
  | [] => some (0, [])
  | c :: rest =>
    if c = 'e' || c = 'E' then
      match rest with
      | '+' :: r2 =>
        let p := r2.span Char.isDigit
        if p.1.isEmpty then none else some ((digitsVal p.1 : Int), p.2)
      | '-' :: r2 =>
        let p := r2.span Char.isDigit
        if p.1.isEmpty then none else some (-(digitsVal p.1 : Int), p.2)
      | r2 =>
        let p := r2.span Char.isDigit
        if p.1.isEmpty then none else some ((digitsVal p.1 : Int), p.2)
    else some (0, c :: rest)

/-- Python `float(s)` on finite decimal literals: optional surrounding
whitespace, optional sign, mantissa, optional exponent; `none` models the
`ValueError` raised on anything else.  (The `inf`/`nan` spellings and digit
underscores, irrelevant to price strings, are not modelled.) -/
def pyFloat (cs : List Char) : Option ℚ :=
  let t := pyStripList cs
  let signed : ℚ × List Char :=
    match t with
    | '+' :: r => (1, r)
    | '-' :: r => (-1, r)
    | r => (1, r)
  match parseMantissa signed.2 with
  | none => none
  | some (m, rest) =>
    match parseExpPart rest with
    | none => none
    | some (e, rest2) =>
      if rest2.isEmpty then some (signed.1 * m * (10 : ℚ) ^ e) else none

/-- `price_str.replace('₹', '')`: remove every rupee glyph. -/
def removeRupee (cs : List Char) : List Char :=
  cs.filter (fun c => c != '₹')

/-- `.replace('per kg', '')`: remove every occurrence of the substring
`per kg`, scanning left to right. -/
def removePerKg : List Char → List Char
  | 'p' :: 'e' :: 'r' :: ' ' :: 'k' :: 'g' :: rest => removePerKg rest
  | c :: rest => c :: removePerKg rest
  | [] => []

/-- The candidate text after `price_str.replace('₹', '').replace('per kg', '').strip()`. -/
def strippedCandidate (price_str : String) : List Char :=
  pyStripList (removePerKg (removeRupee price_str.data))

/-- `parse_price` from `gro.py`: strip the glyph and unit, take the part
before the first hyphen when one is present, and convert with `float`;
`none` models the `return None` in the bare `except`. -/
def parse_price (price_str : String) : Option ℚ :=
  let price := strippedCandidate price_str
  let price := if price.contains '-' then price.takeWhile (fun c => c != '-') else price
  pyFloat price

example : parse_price "₹40-50 per kg" = some 40 := by decide
example : parse_price "₹45 per kg" = some 45 := by decide
example : parse_price "" = none := by decide
example : parse_price "abc" = none := by decide
example : parse_price "₹30-20 per kg" = some 30 := by decide
example : parse_price "40-50-60" = some 40 := by decide
example : parse_price "40-abc" = some 40 := by decide
example : parse_price "-5" = none := by decide
example : parse_price "₹-5 per kg" = none := by decide
example : parse_price "₹40 - 50 per kg" = some 40 := by decide
example : parse_price "4.5" = some (9/2) := by decide

/-- One successfully scraped row: the three columns stored by the scraper. -/
structure PriceRecord where
  vegetable : String
  priceRange : String
  minPrice : ℚ
deriving DecidableEq, Repr

/-- Outcome of the HTTP GET plus HTML parse in `scrape_vegetable_prices`:
either the request raised (connection error or `raise_for_status`), or the
page was parsed and `soup.find` located the target table (`some rows`, each
row the list of its `td` cell texts) or did not (`none`). -/
inductive FetchOutcome where
  | requestError (msg : String)
  | success (table : Option (List (List String)))
deriving DecidableEq, Repr

/-- The row loop of `scrape_vegetable_prices`: a row needs at least 3 cells;
cell 1 is the vegetable name, cell 2 the raw price range; the record is
appended only when `parse_price` succeeds. -/
def processRows : List (List String) → List PriceRecord
  | [] => []
  | row :: rest =>
    if 3 ≤ row.length then
      -- `columns[1]` / `columns[2]` are in bounds under the guard, so the
      -- `getD` defaults are unreachable.
      match parse_price (pyStrip (row.getD 2 "")) with
      | some price => ⟨pyStrip (row.getD 1 ""), pyStrip (row.getD 2 ""), price⟩ :: processRows rest
      | none => processRows rest
    else processRows rest

/-- `scrape_vegetable_prices` from `gro.py`: empty dataset on request error
or missing table; otherwise process the rows after the two header rows. -/
def scrape_vegetable_prices : FetchOutcome → List PriceRecord
  | .requestError _ => []
  | .success none => []
  | .success (some rows) => processRows (rows.drop 2)

/-- `pandas.Series.min`: `none` on an empty column (pandas gives NaN there,
but the dashboard never reaches that case: the empty frame has no column). -/
def seriesMin : List ℚ → Option ℚ
  | [] => none
  | x :: xs => some (xs.foldl min x)

/-- `pandas.Series.max`, as `seriesMin`. -/
def seriesMax : List ℚ → Option ℚ
  | [] => none
  | x :: xs => some (xs.foldl max x)

/-- The parts of the Dash layout that depend on the data: the range-slider
bounds and initial value, and the table contents. -/
structure Dashboard where
  sliderMin : ℚ
  sliderMax : ℚ
  sliderValue : ℚ × ℚ
  tableData : List PriceRecord
deriving DecidableEq, Repr

/-- `create_dashboard` from `gro.py`, restricted to its data-dependent part.
`df['Min Price']` on the empty frame returned by a failed or empty scrape
raises `KeyError` (the frame has no columns), modelled as `Except.error`;
on a non-empty frame the slider bounds are the column min/max. -/
def create_dashboard (df : List PriceRecord) : Except String Dashboard :=
  match seriesMin (df.map (·.minPrice)), seriesMax (df.map (·.minPrice)) with
  | some lo, some hi => Except.ok ⟨lo, hi, (lo, hi), df⟩
  | _, _ => Except.error "KeyError: Min Price"

/-- The data of the `px.bar` call in `update_charts`: x axis, y axis and the
colour scale column. -/
structure BarChart where
  x : List String
  y : List ℚ
  colorBy : List ℚ
deriving DecidableEq, Repr

/-- The data of the `px.histogram` call in `update_charts`: the binned
column and the fixed bin count. -/
structure HistogramChart where
  x : List ℚ
  nbins : Nat
deriving DecidableEq, Repr

/-- `update_charts` from `gro.py`: keep the rows whose `Min Price` lies in
the inclusive slider range, then build both chart payloads and the table
data from the filtered frame. -/
def update_charts (df : List PriceRecord) (price_range : ℚ × ℚ) :
    BarChart × HistogramChart × List PriceRecord :=
  let filtered_df := df.filter
    (fun r => decide (price_range.1 ≤ r.minPrice) && decide (r.minPrice ≤ price_range.2))
  (⟨filtered_df.map (·.vegetable), filtered_df.map (·.minPrice), filtered_df.map (·.minPrice)⟩,
   ⟨filtered_df.map (·.minPrice), 20⟩,
   filtered_df)

/-- Modelled from the spec: the per-row rule of the scraper stated as one
function — at least 3 cells, name from cell 1, raw range from cell 2, a
record exactly when the raw range parses — used to compare the row loop
against the spec's description. -/
def rowRecordSpec (row : List String) : Option PriceRecord :=
  if 3 ≤ row.length then
    match parse_price (pyStrip (row.getD 2 "")) with
    | some price => some ⟨pyStrip (row.getD 1 ""), pyStrip (row.getD 2 ""), price⟩
    | none => none
  else none

/-- HTML fixture: two header rows, three parseable rows, one malformed row. -/
def fixtureTable : List (List String) :=
  [["S.No", "Vegetable", "Price Range"],
   ["", "(Units in Rs.)", ""],
   ["1", "Tomato", "₹40-50 per kg"],
   ["2", "Carrot", "₹45 per kg"],
   ["3", "Potato", "₹30-20 per kg"],
   ["4", "Brinjal", "N/A"]]

example : scrape_vegetable_prices (.success (some fixtureTable)) =
    [⟨"Tomato", "₹40-50 per kg", 40⟩, ⟨"Carrot", "₹45 per kg", 45⟩,
     ⟨"Potato", "₹30-20 per kg", 30⟩] := by decide

/-- HTML fixture whose data rows all fail: one unparseable price, one row
with fewer than 3 cells. -/
def fixtureBadTable : List (List String) :=
  [["S.No", "Vegetable", "Price Range"],
   ["", "(Units in Rs.)", ""],
   ["1", "Tomato", "N/A"],
   ["2"]]

/-- A one-record dataset used as a concrete witness input. -/
def sampleDf : List PriceRecord :=
  [⟨"Tomato", "₹40-50 per kg", 40⟩, ⟨"Carrot", "₹45 per kg", 45⟩]

/- ## Supporting lemmas -/

/-- A left fold of `min` is below its seed and below every list element. -/
theorem foldl_min_bounds (xs : List ℚ) (a : ℚ) :
    xs.foldl min a ≤ a ∧ ∀ x ∈ xs, xs.foldl min a ≤ x := by
  induction xs generalizing a with
  | nil => simp
  | cons y ys ih =>
    simp only [List.foldl_cons]
    refine ⟨le_trans (ih (min a y)).1 (min_le_left a y), ?_⟩
    intro x hx
    rcases List.mem_cons.mp hx with hEq | hMem
    · subst hEq; exact le_trans (ih (min a x)).1 (min_le_right a x)
    · exact (ih (min a y)).2 x hMem

/-- A left fold of `max` is above its seed and above every list element. -/
theorem foldl_max_bounds (xs : List ℚ) (a : ℚ) :
    a ≤ xs.foldl max a ∧ ∀ x ∈ xs, x ≤ xs.foldl max a := by
  induction xs generalizing a with
  | nil => simp
  | cons y ys ih =>
    simp only [List.foldl_cons]
    refine ⟨le_trans (le_max_left a y) (ih (max a y)).1, ?_⟩
    intro x hx
    rcases List.mem_cons.mp hx with hEq | hMem
    · subst hEq; exact le_trans (le_max_right a x) (ih (max a x)).1
    · exact (ih (max a y)).2 x hMem

/-- `seriesMin l = some m` makes `m` a lower bound of `l`. -/
theorem seriesMin_le (l : List ℚ) (m : ℚ) (h : seriesMin l = some m) :
    ∀ x ∈ l, m ≤ x := by
  cases l with
  | nil => cases h
  | cons y ys =>
    have hm : ys.foldl min y = m := by
      simpa [seriesMin] using h
    intro x hx
    rcases List.mem_cons.mp hx with hEq | hMem
    · subst hEq; exact hm ▸ (foldl_min_bounds ys x).1
    · exact hm ▸ (foldl_min_bounds ys y).2 x hMem

/-- `seriesMax l = some m` makes `m` an upper bound of `l`. -/
theorem seriesMax_ge (l : List ℚ) (m : ℚ) (h : seriesMax l = some m) :
    ∀ x ∈ l, x ≤ m := by
  cases l with
  | nil => cases h
  | cons y ys =>
    have hm : ys.foldl max y = m := by
      simpa [seriesMax] using h
    intro x hx
    rcases List.mem_cons.mp hx with hEq | hMem
    · subst hEq; exact hm ▸ (foldl_max_bounds ys x).1
    · exact hm ▸ (foldl_max_bounds ys y).2 x hMem

/-- Every record produced by the row loop stores exactly the price that
`parse_price` extracts from its stored raw range. -/
theorem processRows_parse (l : List (List String)) (r : PriceRecord)
    (h : r ∈ processRows l) : parse_price r.priceRange = some r.minPrice := by
  induction l with
  | nil => cases h
  | cons row rest ih =>
    rw [processRows] at h
    by_cases h3 : 3 ≤ row.length
    · rw [if_pos h3] at h
      cases hp : parse_price (pyStrip (row.getD 2 "")) with
      | some price =>
        rw [hp] at h
        rcases List.mem_cons.mp h with hEq | hMem
        · subst hEq; simpa using hp
        · exact ih hMem
      | none =>
        rw [hp] at h
        exact ih h
    · rw [if_neg h3] at h
      exact ih h

/-- The row loop equals `filterMap` of the spec's per-row rule. -/
theorem processRows_eq_filterMap (l : List (List String)) :
    processRows l = l.filterMap rowRecordSpec := by
  induction l with
  | nil => rfl
  | cons row rest ih =>
    rw [processRows, List.filterMap_cons, rowRecordSpec]
    by_cases h3 : 3 ≤ row.length
    · rw [if_pos h3, if_pos h3]
      cases hp : parse_price (pyStrip (row.getD 2 "")) with
      | some price => simp [hp, ih]
      | none => simp [hp, ih]
    · rw [if_neg h3, if_neg h3]
      simp [ih]

/-- When every data row either lacks cells or fails price parsing, the row
loop produces nothing. -/
theorem processRows_nil_of_all_fail (l : List (List String))
    (h : ∀ row ∈ l, row.length < 3 ∨ parse_price (pyStrip (row.getD 2 "")) = none) :
    processRows l = [] := by
  induction l with
  | nil => rfl
  | cons row rest ih =>
    have hrest : processRows rest = [] :=
      ih fun r hr => h r (List.mem_cons_of_mem _ hr)
    rw [processRows]
    rcases h row (List.mem_cons_self row rest) with hlen | hp
    · rw [if_neg (by omega)]
      exact hrest
    · by_cases h3 : 3 ≤ row.length
      · rw [if_pos h3, hp]
        exact hrest
      · rw [if_neg h3]
        exact hrest

/- ## Claim theorems -/

/-- C1: on the empty Dataset, dashboard construction does not degrade to a
"no data" state — it errors: `df['Min Price']` on the columnless empty
frame raises `KeyError`, so the filter widget is never built. -/
theorem create_dashboard_empty_raises :
    create_dashboard [] = Except.error "KeyError: Min Price" := rfl

/-- C2: for every Dataset and every range `[lo, hi]` with `lo ≤ hi`, the
filter callback returns exactly the records whose `minPrice` lies in the
inclusive range: sound and complete. -/
theorem update_charts_filter_iff (df : List PriceRecord) (lo hi : ℚ)
    (_h : lo ≤ hi) (r : PriceRecord) :
    r ∈ (update_charts df (lo, hi)).2.2 ↔
      r ∈ df ∧ lo ≤ r.minPrice ∧ r.minPrice ≤ hi := by
  simp [update_charts, List.mem_filter, and_assoc]

/-- C2 witness: the filter membership equivalence at a concrete dataset,
range and record. -/
theorem update_charts_filter_iff_witness :
    (0:ℚ) ≤ 100 ∧
    ((⟨"Tomato", "₹40-50 per kg", 40⟩ : PriceRecord) ∈
        (update_charts sampleDf (0, 100)).2.2 ↔
      (⟨"Tomato", "₹40-50 per kg", 40⟩ : PriceRecord) ∈ sampleDf ∧
        (0:ℚ) ≤ 40 ∧ (40:ℚ) ≤ 100) :=
  ⟨by decide, update_charts_filter_iff sampleDf 0 100 (by decide) _⟩

/-- C3 counterexample: the code does return a partial number on malformed
ranges — everything after the first hyphen is discarded, so "40-50-60" and
"40-abc" parse to 40, not NOT_PARSEABLE. -/
theorem parse_price_partial_counterexample :
    parse_price "40-50-60" = some 40 ∧ parse_price "40-abc" = some 40 := by
  decide

/-- C3 amended: malformed content yields NOT_PARSEABLE only when it lies in
the candidate before the first hyphen ("abc", "4x0-50", "abc-50"); content
after the first hyphen is discarded, so "40-50-60" and "40-abc" yield the
partial number 40. -/
theorem parse_price_malformed_head :
    parse_price "abc" = none ∧ parse_price "4x0-50" = none ∧
    parse_price "abc-50" = none ∧
    parse_price "40-50-60" = some 40 ∧ parse_price "40-abc" = some 40 := by
  decide

/-- C4: every record the scraper stores satisfies the invariant that
`parse_price` applied to its stored raw range returns exactly its stored
`minPrice` (in particular the price is never missing: rows whose price does
not parse are dropped by the row loop). -/
theorem dataset_records_parse (outcome : FetchOutcome) (r : PriceRecord)
    (h : r ∈ scrape_vegetable_prices outcome) :
    parse_price r.priceRange = some r.minPrice := by
  cases outcome with
  | requestError e => cases h
  | success t =>
    cases t with
    | none => cases h
    | some rows => exact processRows_parse (rows.drop 2) r h

/-- C4 witness: the invariant at a concrete scraped record. -/
theorem dataset_records_parse_witness :
    (⟨"Tomato", "₹40-50 per kg", 40⟩ : PriceRecord) ∈
      scrape_vegetable_prices (.success (some fixtureTable)) ∧
    parse_price "₹40-50 per kg" = some 40 :=
  ⟨by decide,
   dataset_records_parse (.success (some fixtureTable))
     ⟨"Tomato", "₹40-50 per kg", 40⟩ (by decide)⟩

/-- C5: on a Dataset accepted by dashboard construction (hence non-empty),
running the filter callback at the initial slider value
`[min minPrice, max minPrice]` returns the whole Dataset, same records in
the same order. -/
theorem update_charts_full_range (df : List PriceRecord) (d : Dashboard)
    (h : create_dashboard df = Except.ok d) :
    (update_charts df d.sliderValue).2.2 = df := by
  unfold create_dashboard at h
  cases hmin : seriesMin (df.map (·.minPrice)) with
  | none => rw [hmin] at h; cases df <;> simp_all [seriesMin]
  | some lo =>
    cases hmax : seriesMax (df.map (·.minPrice)) with
    | none => cases df <;> simp_all [seriesMin, seriesMax]
    | some hi =>
      rw [hmin, hmax] at h
      obtain rfl : Dashboard.mk lo hi (lo, hi) df = d := Except.ok.inj h
      show (df.filter _) = df
      apply List.filter_eq_self.mpr
      intro r hr
      have h1 : lo ≤ r.minPrice :=
        seriesMin_le _ _ hmin r.minPrice (List.mem_map_of_mem _ hr)
      have h2 : r.minPrice ≤ hi :=
        seriesMax_ge _ _ hmax r.minPrice (List.mem_map_of_mem _ hr)
      simp [h1, h2]

/-- C5 witness: the full-range filter is the identity on a concrete
two-record dataset. -/
theorem update_charts_full_range_witness :
    create_dashboard sampleDf =
      Except.ok ⟨40, 45, (40, 45), sampleDf⟩ ∧
    (update_charts sampleDf (Dashboard.mk 40 45 (40, 45) sampleDf).sliderValue).2.2 =
      sampleDf :=
  ⟨by rfl, update_charts_full_range sampleDf _ (by rfl)⟩

/-- C6: the scraper returns the empty Dataset, raising nothing, when the
request fails, when the target table is absent, and when every data row
fails per-row parsing (too few cells or unparseable price). -/
theorem scrape_empty_on_failure (e : String) (rows : List (List String))
    (h : ∀ row ∈ rows.drop 2,
      row.length < 3 ∨ parse_price (pyStrip (row.getD 2 "")) = none) :
    scrape_vegetable_prices (.requestError e) = [] ∧
    scrape_vegetable_prices (.success none) = [] ∧
    scrape_vegetable_prices (.success (some rows)) = [] :=
  ⟨rfl, rfl, processRows_nil_of_all_fail (rows.drop 2) h⟩

/-- C6 witness: the three failure cases at concrete inputs. -/
theorem scrape_empty_on_failure_witness :
    (∀ row ∈ fixtureBadTable.drop 2,
      row.length < 3 ∨ parse_price (pyStrip (row.getD 2 "")) = none) ∧
    scrape_vegetable_prices (.requestError "connection refused") = [] ∧
    scrape_vegetable_prices (.success none) = [] ∧
    scrape_vegetable_prices (.success (some fixtureBadTable)) = [] :=
  ⟨by decide, scrape_empty_on_failure "connection refused" fixtureBadTable (by decide)⟩

/-- C7: the scraper drops the two header rows and applies the spec's
per-row rule (3 cells required, name from cell 1, raw range from cell 2,
kept exactly when the price parses) to every remaining row; on the fixture
with 3 parseable rows and 1 malformed row it returns exactly the 3 records,
the malformed row excluded. -/
theorem scrape_rows_rule :
    (∀ rows : List (List String),
      scrape_vegetable_prices (.success (some rows)) =
        (rows.drop 2).filterMap rowRecordSpec) ∧
    scrape_vegetable_prices (.success (some fixtureTable)) =
      [⟨"Tomato", "₹40-50 per kg", 40⟩, ⟨"Carrot", "₹45 per kg", 45⟩,
       ⟨"Potato", "₹30-20 per kg", 30⟩] :=
  ⟨fun rows => processRows_eq_filterMap (rows.drop 2), by decide⟩

/-- C8: the parser's documented values: "₹40-50 per kg" ↦ 40, "₹45 per kg"
↦ 45, "" ↦ NOT_PARSEABLE, "abc" ↦ NOT_PARSEABLE, and "₹30-20 per kg" ↦ 30
(the value before the first hyphen). -/
theorem parse_price_documented_values :
    parse_price "₹40-50 per kg" = some 40 ∧
    parse_price "₹45 per kg" = some 45 ∧
    parse_price "" = none ∧
    parse_price "abc" = none ∧
    parse_price "₹30-20 per kg" = some 30 := by
  decide

/-- C9: the parser is total — on every input string it returns either a
number or NOT_PARSEABLE (the bare `except` turns every conversion failure
into `None`, modelled by the total `Option`-valued function). -/
theorem parse_price_total (s : String) :
    parse_price s = none ∨ ∃ q : ℚ, parse_price s = some q := by
  cases h : parse_price s with
  | none => exact Or.inl rfl
  | some q => exact Or.inr ⟨q, rfl⟩

/-- C10: whenever the candidate left after stripping the glyph and unit
begins with a hyphen, the part before the first hyphen is empty, its
conversion fails, and the parser returns NOT_PARSEABLE — negative prices
are never parseable. -/
theorem parse_price_leading_hyphen (s : String)
    (h : (strippedCandidate s).head? = some '-') :
    parse_price s = none := by
  unfold parse_price
  cases hc : strippedCandidate s with
  | nil => rw [hc] at h; cases h
  | cons c t =>
    rw [hc] at h
    have hcEq : c = '-' := by simpa using h
    subst hcEq
    simp [List.contains_cons]
    rfl

/-- C10 witness: the leading-hyphen rule at "₹-5 per kg". -/
theorem parse_price_leading_hyphen_witness :
    (strippedCandidate "₹-5 per kg").head? = some '-' ∧
    parse_price "₹-5 per kg" = none :=
  ⟨by decide, parse_price_leading_hyphen "₹-5 per kg" (by decide)⟩

end Gro
